import Mathlib

/-!
Verification development for the research-bot orchestration pipeline
(`bot.py`).  The pure data-transformation core of the program is embedded
shallowly: the query planner (`generate_search_queries`), the batched
fan-out executor (`search_with_semaphore` plus the `range(0, len, C)`
batching loop), the finding aggregator (collection, case-insensitive
title deduplication, snippet filter, cap), the report-synthesis fallback,
and the per-user job lifecycle (`start_research`, `cancel_command`,
`status_command`, `_research_task_runner`) as a state machine over the
`_tasks` handle map and the `active_researches` job map, instrumented
with an event trace recording durable writes (`save_research_to_db`)
and user-visible status notifications in the order the code performs
them.
-/

namespace Bot

/-! ### Settings (per-user dict with keys max_results, deep_analysis, lang) -/

structure Settings where
  max_results : Nat
  deep_analysis : Bool
  lang : String
deriving DecidableEq, Repr

/-! ### String helpers mirroring Python `str.lower` and the `in` operator.
`strToLower` case-folds per character; `strContains hay needle` is
Python `needle in hay` (contiguous-substring test). -/

/-- Python `str.lower()` on one character, covering the working alphabet
of the program: ASCII letters A-Z (mapped to a-z), the Cyrillic capitals
А-Я (U+0410-U+042F, mapped to а-я at U+0430-U+044F) and Ё (U+0401,
mapped to ё at U+0451).  Every keyword, topic and title the code
lowercases is drawn from this alphabet. -/
def charToLower (c : Char) : Char :=
  if 65 ≤ c.toNat ∧ c.toNat ≤ 90 then Char.ofNat (c.toNat + 32)
  else if 0x410 ≤ c.toNat ∧ c.toNat ≤ 0x42F then Char.ofNat (c.toNat + 32)
  else if c.toNat = 0x401 then Char.ofNat 0x451
  else c

def strToLower (s : String) : String :=
  ⟨s.data.map charToLower⟩

def charsPrefix : List Char → List Char → Bool
  | [], _ => true
  | _ :: _, [] => false
  | a :: as, b :: bs => a == b && charsPrefix as bs

def charsContains (needle : List Char) : List Char → Bool
  | [] => needle.isEmpty
  | c :: rest => charsPrefix needle (c :: rest) || charsContains needle rest

def strContains (hay needle : String) : Bool :=
  charsContains needle.data hay.data

/-! ### Query planner — `ResearchBot.generate_search_queries` (bot.py 728-770) -/

def base_queries (topic : String) : List String :=
  [ topic ++ " обзор 2025"
  , topic ++ " исследование анализ"
  , topic ++ " статистика данные тренды"
  , topic ++ " развитие перспективы"
  , topic ++ " проблемы вызовы решения"
  , topic ++ " инновации технологии"
  , topic ++ " рынок прогнозы"
  , topic ++ " экспертное мнение аналитика" ]

def deep_queries (topic : String) : List String :=
  [ topic ++ " case study практические примеры"
  , topic ++ " лучшие практики опыт"
  , topic ++ " исследования университетов"
  , topic ++ " отчёты консалтинговых компаний"
  , topic ++ " белые книги whitepaper"
  , topic ++ " научные публикации" ]

def tech_keywords : List String :=
  ["технология", "tech", "ии", "ai", "блокчейн", "искусственный интеллект"]

def med_keywords : List String :=
  ["медицина", "здоровье", "лечение"]

def econ_keywords : List String :=
  ["экономика", "финансы", "бизнес"]

def matchesAny (topic_lower : String) (ws : List String) : Bool :=
  ws.any (fun w => strContains topic_lower w)

def tech_variants (topic : String) : List String :=
  [topic ++ " внедрение применение", topic ++ " стартапы компании лидеры"]

def med_variants (topic : String) : List String :=
  [topic ++ " клинические исследования", topic ++ " эффективность результаты"]

def econ_variants (topic : String) : List String :=
  [topic ++ " экономический эффект", topic ++ " инвестиции рынок"]

/-- bot.py 752-768: the domain-specific variants are appended by an
`if/elif/elif` chain on keyword matches against `topic.lower()` —
regardless of the `deep_analysis` flag. -/
def domain_queries (topic : String) : List String :=
  let tl := strToLower topic
  if matchesAny tl tech_keywords then tech_variants topic
  else if matchesAny tl med_keywords then med_variants topic
  else if matchesAny tl econ_keywords then econ_variants topic
  else []

/-- bot.py 728-770: 8 base templates, then (if `deep_analysis`) 6 deep
templates, then the domain variants, truncated to 16. -/
def generate_search_queries (topic : String) (settings : Settings) : List String :=
  ((base_queries topic
      ++ (if settings.deep_analysis then deep_queries topic else [])
      ++ domain_queries topic)).take 16

/-! ### Gateway results and the fan-out executor (bot.py 627-676) -/

structure Item where
  title : String
  snippet : String
  link : String
deriving DecidableEq, Repr

/-- A Serper response as consumed by the pipeline: only the `organic`
item list matters; the empty dict `{}` is the response with no
`organic` key, i.e. `organic = []`. -/
structure SerperResp where
  organic : List Item
deriving DecidableEq, Repr

def emptyResp : SerperResp := { organic := [] }

/-- Outcome of one `serper.search` call as observed through
`asyncio.wait_for`: a response, a timeout, or a raised exception. -/
inductive GatewayOutcome
  | ok (resp : SerperResp)
  | timeout
  | raise (msg : String)
deriving DecidableEq, Repr

/-- bot.py 627-640: `search_with_semaphore` downgrades a timeout or any
exception from the gateway call to the empty result `{}`. -/
def search_with_semaphore : GatewayOutcome → SerperResp
  | .ok r => r
  | .timeout => emptyResp
  | .raise _ => emptyResp

/-- Fuel-indexed worker for `chunks`; fuel is the list length, consumed
one element per chunk, so it never runs out. -/
def chunksGo (c : Nat) : Nat → List α → List (List α)
  | 0, _ => []
  | _, [] => []
  | fuel + 1, x :: xs => (x :: xs.take (c - 1)) :: chunksGo c fuel (xs.drop (c - 1))

/-- bot.py 643-644: `for i in range(0, len(queries), C): batch =
queries[i:i+C]` — consecutive chunks of size `c` in order.  (Python
raises `ValueError` for step `c = 0`; the executor always runs with
`max_concurrent ≥ 1` and the theorems assume `0 < c`.) -/
def chunks (c : Nat) (xs : List α) : List (List α) :=
  chunksGo c xs.length xs

/-- bot.py 645-646: one task per query of the batch; `gather` returns
the results re-associated with the originating query by position. -/
def process_batch (gateway : String → GatewayOutcome) (batch : List String) : List SerperResp :=
  batch.map (fun q => search_with_semaphore (gateway q))

/-! ### Finding aggregation (bot.py 648-694) -/

structure Finding where
  title : String
  snippet : String
  link : String
  source_index : Nat
deriving DecidableEq, Repr

structure Source where
  title : String
  link : String
deriving DecidableEq, Repr

def toSource (f : Finding) : Source := { title := f.title, link := f.link }

/-- bot.py 660-672: an item with a snippet longer than 20 characters
appends a Finding carrying `_source_index = len(sources) + 1` and, in
the same step, the matching Source. -/
def collectItem (acc : List Finding × List Source) (item : Item) :
    List Finding × List Source :=
  if 20 < item.snippet.length then
    (acc.1 ++ [{ title := item.title, snippet := item.snippet, link := item.link,
                 source_index := acc.2.length + 1 }],
     acc.2 ++ [{ title := item.title, link := item.link }])
  else acc

/-- bot.py 656-672: a response contributes only when `res.get("organic")`
is truthy (non-empty); then at most `max_results` items are taken in
gateway order. -/
def collectResponse (maxr : Nat) (acc : List Finding × List Source)
    (resp : SerperResp) : List Finding × List Source :=
  if resp.organic.isEmpty then acc
  else (resp.organic.take maxr).foldl collectItem acc

def collectAll (maxr : Nat) (resps : List SerperResp) : List Finding × List Source :=
  resps.foldl (collectResponse maxr) ([], [])

/-- bot.py 686-692: deduplication pass — keep a finding only when its
lowercased title is unseen and its snippet is longer than 30 characters;
the kept title is then marked seen. -/
def dedupFindings : List Finding → List String → List Finding
  | [], _ => []
  | f :: rest, seen =>
    if strToLower f.title ∉ seen ∧ 30 < f.snippet.length then
      f :: dedupFindings rest (strToLower f.title :: seen)
    else dedupFindings rest seen

/-- bot.py 686-694: dedup then truncate to 25. -/
def filter_dedup_cap (fs : List Finding) : List Finding :=
  (dedupFindings fs []).take 25

/-! ### Report synthesis fallback (bot.py 704-714) -/

inductive SynthOutcome
  | ok (text : String)
  | timeout
  | raise (msg : String)
deriving DecidableEq, Repr

/-- bot.py 704-714: a synthesizer timeout or exception is downgraded to
a placeholder narrative. -/
def reportText : SynthOutcome → String
  | .ok t => t
  | .timeout => "⚠️ Превышено время ожидания ответа от AI. Попробуйте позже или упростите тему."
  | .raise e => "⚠️ Ошибка при создании отчёта: " ++ e

/-! ### `_run_research_logic` (bot.py 611-726), pure data part -/

structure ResearchResults where
  topic : String
  searches : List (String × List Item)
  key_findings : List Finding
  sources : List Source
  full_report_text : String
deriving DecidableEq, Repr

/-- The per-query responses, produced batch by batch in planner order
and flattened (bot.py 643-648). -/
def resps_of (topic : String) (s : Settings) (C : Nat)
    (gateway : String → GatewayOutcome) : List SerperResp :=
  ((chunks C (generate_search_queries topic s)).map (process_batch gateway)).flatten

def collected_of (topic : String) (s : Settings) (C : Nat)
    (gateway : String → GatewayOutcome) : List Finding × List Source :=
  collectAll s.max_results (resps_of topic s C gateway)

/-- bot.py 656-658: `results["searches"]` records each query whose
response had organic items, with the truncated item list. -/
def searchesOf (queries : List String) (resps : List SerperResp) (maxr : Nat) :
    List (String × List Item) :=
  (queries.zip resps).filterMap
    (fun p => if p.2.organic.isEmpty then none else some (p.1, p.2.organic.take maxr))

/-- bot.py 611-726, the data flow of `_run_research_logic`: plan queries,
fan out batched searches, collect findings and sources, dedup and cap
the findings, and fill the report text from the synthesizer outcome
(downgraded on failure).  Progress notifications and pauses are I/O and
carry no data. -/
def run_research_logic (topic : String) (s : Settings) (C : Nat)
    (gateway : String → GatewayOutcome) (synth : SynthOutcome) : ResearchResults :=
  let queries := generate_search_queries topic s
  let resps := resps_of topic s C gateway
  let col := collected_of topic s C gateway
  { topic := topic
  , searches := searchesOf queries resps s.max_results
  , key_findings := filter_dedup_cap col.1
  , sources := col.2
  , full_report_text := reportText synth }

/-! ### Job lifecycle (bot.py 389-428, 463-496, 498-609)

State: the `_tasks` handle map (modelled by its key set, a duplicate-free
list of chat ids) and the `active_researches` job map (an association
list).  Each operation additionally returns the trace of durable
snapshot writes (`save_research_to_db`) and user-visible notifications
of a job status, in the order the code performs them. -/

inductive Status
  | running
  | done
  | cancelled
  | error
deriving DecidableEq, Repr

/-- The `active_researches[chat_id]` metadata dict (bot.py 485-491),
plus the fields added on completion (bot.py 505-510).  The assembled
markdown text is presentation-only and not modelled. -/
structure Job where
  topic : String
  progress_message_id : Nat
  start_time : Nat
  status : Status
  settings : Settings
  completed_time : Option Nat := none
  sources_list : List Source := []
deriving DecidableEq, Repr

structure BotState where
  tasks : List Nat
  jobs : List (Nat × Job)
deriving DecidableEq, Repr

def lookupJob (chat : Nat) : List (Nat × Job) → Option Job
  | [] => none
  | p :: rest => if p.1 = chat then some p.2 else lookupJob chat rest

/-- Python dict assignment `active_researches[chat] = job`. -/
def setJob (chat : Nat) (j : Job) : List (Nat × Job) → List (Nat × Job)
  | [] => [(chat, j)]
  | p :: rest => if p.1 = chat then (chat, j) :: rest else p :: setJob chat j rest

/-- In-place mutation of the job under `chat`, a no-op when absent (every
mutation site in the code is guarded by `if chat_id in self.active_researches`
or reached only after `start_research` created the entry). -/
def updateJob (chat : Nat) (f : Job → Job) : List (Nat × Job) → List (Nat × Job)
  | [] => []
  | p :: rest => if p.1 = chat then (p.1, f p.2) :: rest else p :: updateJob chat f rest

/-- Event trace entry: a durable snapshot write of a status, or an
attempted user-visible notification of a status. -/
inductive TraceEv
  | write (s : Status)
  | notify (s : Status)
deriving DecidableEq, Repr

/-- Holds iff every notification of a status is preceded by a durable
write of that same status. -/
def notifies_after_write : List TraceEv → List Status → Bool
  | [], _ => true
  | .write s :: rest, ws => notifies_after_write rest (s :: ws)
  | .notify s :: rest, ws => ws.contains s && notifies_after_write rest ws

def write_before_notify (t : List TraceEv) : Bool :=
  notifies_after_write t []

inductive StartResult
  | alreadyActive
  | started
deriving DecidableEq, Repr

/-- bot.py 463-496 `start_research`: reject when a task handle exists;
otherwise reply with the launch message (a user-visible notification of
the new `running` job, line 475), record the metadata, persist it as
`running` (line 493), and register the task handle. -/
def start_research (chat : Nat) (topic : String) (now : Nat) (s : Settings)
    (pmid : Nat) (st : BotState) : StartResult × BotState × List TraceEv :=
  if chat ∈ st.tasks then (.alreadyActive, st, [])
  else
    (.started,
     { tasks := st.tasks ++ [chat]
     , jobs := setJob chat
         { topic := topic, progress_message_id := pmid, start_time := now,
           status := .running, settings := s } st.jobs },
     [.notify .running, .write .running])

inductive CancelResult
  | noActiveJob
  | cancelled
deriving DecidableEq, Repr

/-- bot.py 411-428 `cancel_command`: with no task handle, reject; with a
handle, cancel the task, set status `cancelled` and persist it (guarded
by the job entry existing, lines 416-424), drop the handle, and reply. -/
def cancel_command (chat : Nat) (st : BotState) : CancelResult × BotState × List TraceEv :=
  if chat ∈ st.tasks then
    if (lookupJob chat st.jobs).isSome then
      (.cancelled,
       { tasks := st.tasks.filter (fun t => t != chat)
       , jobs := updateJob chat (fun j => { j with status := .cancelled }) st.jobs },
       [.write .cancelled, .notify .cancelled])
    else
      (.cancelled, { st with tasks := st.tasks.filter (fun t => t != chat) },
       [.notify .cancelled])
  else (.noActiveJob, st, [])

inductive StatusReport
  | noActive
  | report (topic : String) (elapsed_text : String) (status : Status)
deriving DecidableEq, Repr

/-- bot.py 251-260 `_format_time`. -/
def format_time (seconds : Nat) : String :=
  if seconds < 60 then toString seconds ++ " сек"
  else if seconds < 3600 then toString (seconds / 60) ++ " мин " ++ toString (seconds % 60) ++ " сек"
  else toString (seconds / 3600) ++ " ч " ++ toString ((seconds % 3600) / 60) ++ " мин"

/-- bot.py 389-409 `status_command`: a read that reports the topic of the job,
the elapsed time recomputed from the current clock
(`int(time.time() - r["start_time"])`), and the stored status.  The
state is returned unchanged — the handler performs no mutation. -/
def status_command (chat : Nat) (now : Nat) (st : BotState) : StatusReport × BotState :=
  (match lookupJob chat st.jobs with
   | some j => .report j.topic (format_time (now - j.start_time)) j.status
   | none => .noActive,
   st)

/-- bot.py 498-573 and 607-609, success path of `_research_task_runner`:
store the results on the job, persist `done` (line 511), then notify
completion (line 519) and send the documents; `finally` drops the task
handle. -/
def research_task_runner_success (chat : Nat) (topic : String) (s : Settings)
    (C : Nat) (gateway : String → GatewayOutcome) (synth : SynthOutcome)
    (now : Nat) (st : BotState) : BotState × List TraceEv :=
  let results := run_research_logic topic s C gateway synth
  ({ tasks := st.tasks.filter (fun t => t != chat)
   , jobs := updateJob chat (fun j =>
       { j with status := .done,
                completed_time := some (now - j.start_time),
                sources_list := results.sources }) st.jobs },
   [.write .done, .notify .done])

/-- bot.py 575-590 and 607-609, `asyncio.CancelledError` path: persist
`cancelled` (guarded by the job entry, lines 577-582), then notify
(line 584); `finally` drops the task handle. -/
def research_task_runner_cancelled (chat : Nat) (st : BotState) : BotState × List TraceEv :=
  ({ tasks := st.tasks.filter (fun t => t != chat)
   , jobs := updateJob chat (fun j => { j with status := .cancelled }) st.jobs },
   (if (lookupJob chat st.jobs).isSome then [TraceEv.write .cancelled] else [])
     ++ [TraceEv.notify .cancelled])

/-- bot.py 591-609, unhandled-exception path: notify the user of the
failure first (lines 593-600), only then persist `error` (guarded by the
job entry, lines 601-606); `finally` drops the task handle. -/
def research_task_runner_error (chat : Nat) (st : BotState) : BotState × List TraceEv :=
  ({ tasks := st.tasks.filter (fun t => t != chat)
   , jobs := updateJob chat (fun j => { j with status := .error }) st.jobs },
   [TraceEv.notify .error]
     ++ (if (lookupJob chat st.jobs).isSome then [TraceEv.write .error] else []))

/-! ### Concrete fixtures for witnesses and counterexamples -/

def settings₀ : Settings := { max_results := 5, deep_analysis := false, lang := "ru" }

def settings_deep : Settings := { max_results := 5, deep_analysis := true, lang := "ru" }

def item₁ : Item :=
  { title := "Result One", snippet := "aaaaaaaaaaaaaaaaaaaaaaaaaaaaaaaaaaa",
    link := "https://a.example" }

def item₂ : Item :=
  { title := "Result Two", snippet := "bbbbbbbbbbbbbbbbbbbbbbbbbbbbbbbbbbb",
    link := "https://b.example" }

def item₃ : Item :=
  { title := "Result Three", snippet := "ccccccccccccccccccccccccccccccccccc",
    link := "https://c.example" }

/-- A stubbed gateway returning the same three qualifying items for every
query, so every title repeats across queries. -/
def g₀ : String → GatewayOutcome :=
  fun _ => .ok { organic := [item₁, item₂, item₃] }

def qs₀ : List String := generate_search_queries "x" settings₀

def job_running : Job :=
  { topic := "x", progress_message_id := 3, start_time := 0,
    status := .running, settings := settings₀ }

def st_running : BotState := { tasks := [1], jobs := [(1, job_running)] }

def job_done : Job :=
  { topic := "x", progress_message_id := 3, start_time := 0,
    status := .done, settings := settings₀, completed_time := some 60 }

/-- A finished job whose task handle has already been released. -/
def st_done : BotState := { tasks := [], jobs := [(1, job_done)] }

def finding₁ : Finding :=
  { title := "Медицина", snippet := "ddddddddddddddddddddddddddddddddddd",
    link := "https://d.example", source_index := 1 }

def finding₂ : Finding :=
  { title := "медицина", snippet := "eeeeeeeeeeeeeeeeeeeeeeeeeeeeeeeeeee",
    link := "https://e.example", source_index := 2 }

/-! ### Executor lemmas -/

theorem chunksGo_flatten (c : Nat) :
    ∀ (fuel : Nat) (xs : List α), xs.length ≤ fuel → (chunksGo c fuel xs).flatten = xs := by
  intro fuel
  induction fuel with
  | zero =>
    intro xs h
    have : xs = [] := List.eq_nil_of_length_eq_zero (Nat.le_zero.mp h)
    subst this
    rfl
  | succ fuel ih =>
    intro xs h
    cases xs with
    | nil => rfl
    | cons x xs =>
      have hlen : (xs.drop (c - 1)).length ≤ fuel := by
        simp only [List.length_drop]
        simp only [List.length_cons] at h
        omega
      simp only [chunksGo, List.flatten_cons, ih _ hlen, List.cons_append,
        List.take_append_drop]

theorem chunks_flatten (c : Nat) (xs : List α) : (chunks c xs).flatten = xs :=
  chunksGo_flatten c xs.length xs le_rfl

theorem chunksGo_length (c : Nat) (hc : 0 < c) :
    ∀ (fuel : Nat) (xs : List α), xs.length ≤ fuel →
      (chunksGo c fuel xs).length = (xs.length + c - 1) / c := by
  intro fuel
  induction fuel with
  | zero =>
    intro xs h
    have : xs = [] := List.eq_nil_of_length_eq_zero (Nat.le_zero.mp h)
    subst this
    simp only [chunksGo, List.length_nil]
    exact (Nat.div_eq_of_lt (by omega)).symm
  | succ fuel ih =>
    intro xs h
    cases xs with
    | nil =>
      simp only [chunksGo, List.length_nil]
      exact (Nat.div_eq_of_lt (by omega)).symm
    | cons x xs =>
      have hlen : (xs.drop (c - 1)).length ≤ fuel := by
        simp only [List.length_drop]
        simp only [List.length_cons] at h
        omega
      simp only [chunksGo, List.length_cons, ih _ hlen, List.length_drop]
      have hform : xs.length + 1 + c - 1 = xs.length + c := by omega
      rw [hform, Nat.add_div_right _ hc]
      rcases Nat.lt_or_ge xs.length (c - 1) with h1 | h1
      · have e0 : xs.length - (c - 1) = 0 := by omega
        rw [e0, Nat.div_eq_of_lt (by omega : 0 + c - 1 < c),
          Nat.div_eq_of_lt (by omega : xs.length < c)]
      · have e1 : xs.length - (c - 1) + c - 1 = xs.length := by omega
        rw [e1]

theorem chunks_length (c : Nat) (hc : 0 < c) (xs : List α) :
    (chunks c xs).length = (xs.length + c - 1) / c :=
  chunksGo_length c hc xs.length xs le_rfl

theorem flatten_map_map (L : List (List α)) (f : α → β) :
    (L.map (fun l => l.map f)).flatten = L.flatten.map f := by
  induction L with
  | nil => rfl
  | cons l rest ih =>
    simp only [List.map_cons, List.flatten_cons, List.map_append, ih]

/-- The batched, positionally re-associated responses are exactly the
per-query results in planner order. -/
theorem resps_of_eq (topic : String) (s : Settings) (C : Nat)
    (gateway : String → GatewayOutcome) :
    resps_of topic s C gateway =
      (generate_search_queries topic s).map (fun q => search_with_semaphore (gateway q)) := by
  unfold resps_of process_batch
  rw [flatten_map_map, chunks_flatten]

/-! ### Aggregator lemmas -/

/-- Collection invariant: the sources list is the image of the findings
list (1:1 pairing), and the findings carry the indices `1..N` in first
appearance order. -/
def paired (acc : List Finding × List Source) : Prop :=
  acc.2 = acc.1.map toSource ∧
  acc.1.map (fun f => f.source_index) = List.range' 1 acc.1.length

theorem collectItem_paired (acc : List Finding × List Source) (it : Item)
    (h : paired acc) : paired (collectItem acc it) := by
  unfold collectItem
  split
  · have hlen : acc.2.length = acc.1.length := by rw [h.1, List.length_map]
    constructor
    · simp only [List.map_append, List.map_cons, List.map_nil, toSource, h.1]
    · simp only [List.map_append, List.map_cons, List.map_nil, List.length_append,
        List.length_cons, List.length_nil, h.2, hlen]
      rw [List.range'_concat]
      simp [Nat.add_comm]
  · exact h

theorem foldl_collectItem_paired :
    ∀ (items : List Item) (acc : List Finding × List Source),
      paired acc → paired (items.foldl collectItem acc) := by
  intro items
  induction items with
  | nil => intro acc h; exact h
  | cons it rest ih => intro acc h; exact ih _ (collectItem_paired _ _ h)

theorem collectResponse_paired (maxr : Nat) (acc : List Finding × List Source)
    (resp : SerperResp) (h : paired acc) : paired (collectResponse maxr acc resp) := by
  unfold collectResponse
  split
  · exact h
  · exact foldl_collectItem_paired _ _ h

theorem collectAll_paired (maxr : Nat) (resps : List SerperResp) :
    paired (collectAll maxr resps) := by
  suffices hgen : ∀ (rs : List SerperResp) (acc : List Finding × List Source),
      paired acc → paired (rs.foldl (collectResponse maxr) acc) from
    hgen resps ([], []) ⟨rfl, rfl⟩
  intro rs
  induction rs with
  | nil => intro acc h; exact h
  | cons r rest ih => intro acc h; exact ih _ (collectResponse_paired _ _ _ h)

theorem foldl_collectItem_length :
    ∀ (items : List Item) (acc : List Finding × List Source),
      (∀ it ∈ items, 20 < it.snippet.length) →
      ((items.foldl collectItem acc).2).length = acc.2.length + items.length := by
  intro items
  induction items with
  | nil => intro acc _; rfl
  | cons it rest ih =>
    intro acc hq
    have hstep : (collectItem acc it).2.length = acc.2.length + 1 := by
      simp [collectItem, hq it (by simp)]
    simp only [List.foldl_cons, List.length_cons]
    rw [ih _ (fun x hx => hq x (by simp [hx])), hstep]
    omega

theorem collectResponse_length (maxr : Nat) (acc : List Finding × List Source)
    (resp : SerperResp) (hm : 3 ≤ maxr) (hlen : resp.organic.length = 3)
    (hq : ∀ it ∈ resp.organic, 20 < it.snippet.length) :
    (collectResponse maxr acc resp).2.length = acc.2.length + 3 := by
  have hne : resp.organic.isEmpty = false := by
    cases ho : resp.organic
    · rw [ho] at hlen; simp at hlen
    · simp [ho]
  unfold collectResponse
  rw [hne]
  simp only [Bool.false_eq_true, if_false]
  rw [List.take_of_length_le (by omega), foldl_collectItem_length _ _ hq, hlen]

theorem collectAll_length (maxr : Nat) (hm : 3 ≤ maxr) :
    ∀ (resps : List SerperResp) (acc : List Finding × List Source),
      (∀ r ∈ resps, r.organic.length = 3 ∧ ∀ it ∈ r.organic, 20 < it.snippet.length) →
      ((resps.foldl (collectResponse maxr) acc).2).length = acc.2.length + 3 * resps.length := by
  intro resps
  induction resps with
  | nil => intro acc _; simp
  | cons r rest ih =>
    intro acc h
    simp only [List.foldl_cons, List.length_cons]
    rw [ih _ (fun x hx => h x (by simp [hx])),
      collectResponse_length maxr acc r hm (h r (by simp)).1 (h r (by simp)).2]
    ring

/-! ### Deduplication lemmas -/

theorem dedup_sublist : ∀ (fs : List Finding) (seen : List String),
    List.Sublist (dedupFindings fs seen) fs := by
  intro fs
  induction fs with
  | nil => intro seen; simp [dedupFindings]
  | cons f rest ih =>
    intro seen
    unfold dedupFindings
    split
    · exact (ih _).cons₂ f
    · exact (ih seen).cons f

theorem mem_dedup : ∀ (fs : List Finding) (seen : List String) (f : Finding),
    f ∈ dedupFindings fs seen → 30 < f.snippet.length ∧ strToLower f.title ∉ seen := by
  intro fs
  induction fs with
  | nil => intro seen f hf; simp [dedupFindings] at hf
  | cons g rest ih =>
    intro seen f hf
    unfold dedupFindings at hf
    split at hf
    · rename_i hcond
      rcases List.mem_cons.mp hf with rfl | hf'
      · exact ⟨hcond.2, hcond.1⟩
      · have hrec := ih _ f hf'
        exact ⟨hrec.1, fun hmem => hrec.2 (List.mem_cons_of_mem _ hmem)⟩
    · exact ih seen f hf

theorem dedup_pairwise : ∀ (fs : List Finding) (seen : List String),
    (dedupFindings fs seen).Pairwise
      (fun a b => strToLower a.title ≠ strToLower b.title) := by
  intro fs
  induction fs with
  | nil => intro seen; simp [dedupFindings]
  | cons f rest ih =>
    intro seen
    unfold dedupFindings
    split
    · refine List.Pairwise.cons ?_ (ih _)
      intro b hb heq
      exact (mem_dedup _ _ _ hb).2 (by rw [← heq]; exact List.mem_cons_self _ _)
    · exact ih seen

theorem dedup_cons_kept (f : Finding) (rest : List Finding) (seen : List String)
    (h1 : strToLower f.title ∉ seen) (h2 : 30 < f.snippet.length) :
    dedupFindings (f :: rest) seen = f :: dedupFindings rest (strToLower f.title :: seen) := by
  simp only [dedupFindings]
  rw [if_pos ⟨h1, h2⟩]

theorem dedup_drops_later (f : Finding) (rest : List Finding) (seen : List String)
    (g : Finding) (hg : g ∈ dedupFindings rest (strToLower f.title :: seen)) :
    strToLower g.title ≠ strToLower f.title := by
  intro heq
  exact (mem_dedup _ _ _ hg).2 (by rw [heq]; exact List.mem_cons_self _ _)

/-! ### Lifecycle lemmas -/

theorem lookup_setJob (chat : Nat) (j : Job) :
    ∀ jobs, lookupJob chat (setJob chat j jobs) = some j := by
  intro jobs
  induction jobs with
  | nil => simp [setJob, lookupJob]
  | cons p rest ih =>
    unfold setJob
    split
    · simp [lookupJob]
    · rename_i hne
      simp [lookupJob, hne, ih]

theorem lookup_updateJob (chat : Nat) (f : Job → Job) :
    ∀ jobs, lookupJob chat (updateJob chat f jobs) = (lookupJob chat jobs).map f := by
  intro jobs
  induction jobs with
  | nil => simp [updateJob, lookupJob]
  | cons p rest ih =>
    unfold updateJob
    split
    · rename_i heq
      simp [lookupJob, heq]
    · rename_i hne
      simp [lookupJob, hne, ih]

theorem not_mem_filter_ne (chat : Nat) (l : List Nat) :
    chat ∉ l.filter (fun t => t != chat) := by
  intro h
  have := (List.mem_filter.mp h).2
  simp at this

theorem start_rejects (chat : Nat) (topic : String) (now : Nat) (s : Settings)
    (pmid : Nat) (st : BotState) (h : chat ∈ st.tasks) :
    (start_research chat topic now s pmid st).1 = .alreadyActive ∧
    (start_research chat topic now s pmid st).2.1 = st := by
  simp [start_research, h]

theorem start_adds_task (chat : Nat) (topic : String) (now : Nat) (s : Settings)
    (pmid : Nat) (st : BotState) (h : chat ∉ st.tasks) :
    chat ∈ (start_research chat topic now s pmid st).2.1.tasks := by
  simp [start_research, h]

/-! ### Planner lemmas -/

theorem domain_queries_cases (topic : String) :
    domain_queries topic = tech_variants topic ∨
    domain_queries topic = med_variants topic ∨
    domain_queries topic = econ_variants topic ∨
    domain_queries topic = [] := by
  unfold domain_queries
  by_cases h1 : matchesAny (strToLower topic) tech_keywords = true
  · simp [h1]
  · by_cases h2 : matchesAny (strToLower topic) med_keywords = true
    · simp [h1, h2]
    · by_cases h3 : matchesAny (strToLower topic) econ_keywords = true
      · simp [h1, h2, h3]
      · simp [h1, h2, h3]

theorem domain_queries_length_le (topic : String) : (domain_queries topic).length ≤ 2 := by
  rcases domain_queries_cases topic with h | h | h | h <;>
    simp [h, tech_variants, med_variants, econ_variants]

theorem string_append_cancel {a b c : String} (h : a ++ b = a ++ c) : b = c := by
  have hd := congrArg String.data h
  simp only [String.data_append] at hd
  have hbc := List.append_cancel_left hd
  cases b
  cases c
  exact congrArg String.mk hbc

/-- The planner output with `deep_analysis` off, in closed form. -/
theorem gen_false_eq (topic : String) (s : Settings) (hs : s.deep_analysis = false) :
    generate_search_queries topic s = base_queries topic ++ domain_queries topic := by
  unfold generate_search_queries
  rw [hs]
  simp only [Bool.false_eq_true, if_false, List.append_nil]
  apply List.take_of_length_le
  have hd := domain_queries_length_le topic
  simp only [List.length_append, base_queries, List.length_cons, List.length_nil]
  omega

/-- The planner output with `deep_analysis` on, in closed form: the full
generation order fits under the cap of 16, so the final truncation is the
identity. -/
theorem gen_true_eq (topic : String) (s : Settings) (hs : s.deep_analysis = true) :
    generate_search_queries topic s =
      base_queries topic ++ deep_queries topic ++ domain_queries topic := by
  unfold generate_search_queries
  rw [hs]
  simp only [if_true]
  apply List.take_of_length_le
  have hd := domain_queries_length_le topic
  simp only [List.length_append, base_queries, deep_queries, List.length_cons,
    List.length_nil]
  omega

/-- Every planned query is the topic followed by a template suffix. -/
theorem planner_queries_shape (topic : String) (s : Settings) (q : String)
    (hq : q ∈ generate_search_queries topic s) : ∃ suf, q = topic ++ suf := by
  have hq' : q ∈ base_queries topic
      ++ (if s.deep_analysis then deep_queries topic else [])
      ++ domain_queries topic := List.mem_of_mem_take hq
  rcases List.mem_append.mp hq' with h12 | h3
  · rcases List.mem_append.mp h12 with h1 | h2
    · simp only [base_queries, List.mem_cons, List.not_mem_nil, or_false] at h1
      rcases h1 with h | h | h | h | h | h | h | h <;> exact ⟨_, h⟩
    · by_cases hdeep : s.deep_analysis
      · rw [if_pos hdeep] at h2
        simp only [deep_queries, List.mem_cons, List.not_mem_nil, or_false] at h2
        rcases h2 with h | h | h | h | h | h <;> exact ⟨_, h⟩
      · rw [if_neg hdeep] at h2
        simp at h2
  · rcases domain_queries_cases topic with hd | hd | hd | hd <;> rw [hd] at h3
    · simp only [tech_variants, List.mem_cons, List.not_mem_nil, or_false] at h3
      rcases h3 with h | h <;> exact ⟨_, h⟩
    · simp only [med_variants, List.mem_cons, List.not_mem_nil, or_false] at h3
      rcases h3 with h | h <;> exact ⟨_, h⟩
    · simp only [econ_variants, List.mem_cons, List.not_mem_nil, or_false] at h3
      rcases h3 with h | h <;> exact ⟨_, h⟩
    · simp at h3

/-- The first deep-analysis template is never produced when
`deep_analysis` is off. -/
theorem deep_query_not_mem_false (topic : String) (s : Settings)
    (hs : s.deep_analysis = false) :
    topic ++ " case study практические примеры" ∉ generate_search_queries topic s := by
  rw [gen_false_eq topic s hs]
  intro hmem
  rcases List.mem_append.mp hmem with h1 | h3
  · simp only [base_queries, List.mem_cons, List.not_mem_nil, or_false] at h1
    rcases h1 with h | h | h | h | h | h | h | h <;>
      exact absurd (string_append_cancel h) (by decide)
  · rcases domain_queries_cases topic with hd | hd | hd | hd <;> rw [hd] at h3
    · simp only [tech_variants, List.mem_cons, List.not_mem_nil, or_false] at h3
      rcases h3 with h | h <;> exact absurd (string_append_cancel h) (by decide)
    · simp only [med_variants, List.mem_cons, List.not_mem_nil, or_false] at h3
      rcases h3 with h | h <;> exact absurd (string_append_cancel h) (by decide)
    · simp only [econ_variants, List.mem_cons, List.not_mem_nil, or_false] at h3
      rcases h3 with h | h <;> exact absurd (string_append_cancel h) (by decide)
    · simp at h3

/-! ### Claim C1 -/

/-- Claim C1, counterexample: the claim says that with
`deep_analysis = false` the planner returns exactly the 8 base-template
queries for every topic.  For the topic `"ai"` the keyword matcher fires
(bot.py 754) and two domain variants are appended even though
`deep_analysis` is off, giving 10 queries. -/
theorem C1_counterexample :
    (generate_search_queries "ai" { max_results := 20, deep_analysis := false, lang := "ru" }).length ≠ 8 := by
  decide

/-- Claim C1, amended: with `deep_analysis = false` the planner returns
exactly the 8 base-template queries only for topics matching no
domain-keyword category (otherwise two domain variants are appended);
for every topic and settings each query contains the topic as a
substring and the output length never exceeds the cap of 16. -/
theorem C1_planner_base_and_cap (topic : String) (s : Settings) :
    (s.deep_analysis = false → domain_queries topic = [] →
       generate_search_queries topic s = base_queries topic ∧
       (generate_search_queries topic s).length = 8) ∧
    (generate_search_queries topic s).length ≤ 16 ∧
    (∀ q ∈ generate_search_queries topic s, ∃ l r, q.data = l ++ topic.data ++ r) := by
  refine ⟨?_, ?_, ?_⟩
  · intro hs hd
    rw [gen_false_eq topic s hs, hd, List.append_nil]
    exact ⟨rfl, rfl⟩
  · unfold generate_search_queries
    rw [List.length_take]
    exact Nat.min_le_left _ _
  · intro q hq
    obtain ⟨suf, rfl⟩ := planner_queries_shape topic s q hq
    exact ⟨[], suf.data, by simp [String.data_append]⟩

/-- Claim C1 witness: for topic `"quantum computing"` (no domain keyword
matches) with `deep_analysis = false`, the planner output is exactly the
base template list of length 8. -/
theorem C1_witness :
    generate_search_queries "quantum computing" settings₀ = base_queries "quantum computing" ∧
    (generate_search_queries "quantum computing" settings₀).length = 8 :=
  (C1_planner_base_and_cap "quantum computing" settings₀).1 rfl (by decide)

/-! ### Claim C9 -/

/-- Claim C9: with `deep_analysis = true` the planner output is a strict
superset of the `deep_analysis = false` output for the same topic; it is
exactly the base templates, then the deep templates, then the domain
variants (so the cap-truncation preserves generation order — the full
list fits under the cap); the domain variants number at most two and
come from the first matching keyword category. -/
theorem C9_deep_planner (topic : String) (s₁ s₂ : Settings)
    (h₁ : s₁.deep_analysis = false) (h₂ : s₂.deep_analysis = true) :
    (∀ q ∈ generate_search_queries topic s₁, q ∈ generate_search_queries topic s₂) ∧
    (∃ q, q ∈ generate_search_queries topic s₂ ∧ q ∉ generate_search_queries topic s₁) ∧
    generate_search_queries topic s₂ =
      base_queries topic ++ deep_queries topic ++ domain_queries topic ∧
    (domain_queries topic).length ≤ 2 ∧
    (matchesAny (strToLower topic) tech_keywords = true →
       domain_queries topic = tech_variants topic) ∧
    (matchesAny (strToLower topic) tech_keywords = false →
       matchesAny (strToLower topic) med_keywords = true →
       domain_queries topic = med_variants topic) := by
  refine ⟨?_, ?_, gen_true_eq topic s₂ h₂, domain_queries_length_le topic, ?_, ?_⟩
  · intro q hq
    rw [gen_false_eq topic s₁ h₁] at hq
    rw [gen_true_eq topic s₂ h₂]
    rcases List.mem_append.mp hq with h | h
    · exact List.mem_append_left _ (List.mem_append_left _ h)
    · exact List.mem_append_right _ h
  · refine ⟨topic ++ " case study практические примеры", ?_,
      deep_query_not_mem_false topic s₁ h₁⟩
    rw [gen_true_eq topic s₂ h₂]
    exact List.mem_append_left _ (List.mem_append_right _ (by simp [deep_queries]))
  · intro ht
    unfold domain_queries
    simp [ht]
  · intro ht hm
    unfold domain_queries
    simp [ht, hm]

/-- Claim C9 witness: for topic `"x"`, the deep-analysis output is the
base-then-deep-then-domain concatenation and strictly contains the
non-deep output; for the Cyrillic topic `"ТЕХНОЛОГИЯ и медицина"`, which
matches both the technology and the medicine keyword categories, the
first matching category (technology) wins; and for `"Медицина"` the
medicine category applies. -/
theorem C9_witness :
    generate_search_queries "x" settings_deep =
      base_queries "x" ++ deep_queries "x" ++ domain_queries "x" ∧
    ("x" ++ " case study практические примеры" ∈ generate_search_queries "x" settings_deep ∧
     "x" ++ " case study практические примеры" ∉ generate_search_queries "x" settings₀) ∧
    domain_queries "ТЕХНОЛОГИЯ и медицина" = tech_variants "ТЕХНОЛОГИЯ и медицина" ∧
    domain_queries "Медицина" = med_variants "Медицина" := by
  refine ⟨(C9_deep_planner "x" settings₀ settings_deep rfl rfl).2.2.1, ?_, ?_, ?_⟩
  · constructor
    · rw [(C9_deep_planner "x" settings₀ settings_deep rfl rfl).2.2.1]
      exact List.mem_append_left _ (List.mem_append_right _ (by simp [deep_queries]))
    · exact deep_query_not_mem_false "x" settings₀ rfl
  · exact (C9_deep_planner "ТЕХНОЛОГИЯ и медицина" settings₀ settings_deep rfl
      rfl).2.2.2.2.1 (by decide)
  · exact (C9_deep_planner "Медицина" settings₀ settings_deep rfl rfl).2.2.2.2.2
      (by decide) (by decide)

/-! ### Claim C4 -/

/-- Claim C4: the executor partitions the `N` queries into exactly
`ceil(N/C)` consecutive batches whose concatenation is the query list in
planner order; a gateway call that raises or times out is downgraded to
the empty result; and the result of a query depends only on its own
gateway outcome — changing the outcome of one query leaves every sibling
position of its batch unchanged. -/
theorem C4_fanout_executor (queries : List String) (C : Nat)
    (gateway g₂ : String → GatewayOutcome) (q e : String) (hC : 0 < C) :
    ((chunks C queries).length = (queries.length + C - 1) / C) ∧
    ((chunks C queries).flatten = queries) ∧
    (search_with_semaphore (.raise e) = emptyResp) ∧
    (search_with_semaphore .timeout = emptyResp) ∧
    ((∀ q', q' ≠ q → g₂ q' = gateway q') →
      ∀ batch ∈ chunks C queries, ∀ i : Nat, batch[i]? ≠ some q →
        (process_batch g₂ batch)[i]? = (process_batch gateway batch)[i]?) := by
  refine ⟨chunks_length C hC queries, chunks_flatten C queries, rfl, rfl, ?_⟩
  intro hagree batch _ i hne
  simp only [process_batch, List.getElem?_map]
  cases hbi : batch[i]? with
  | none => rfl
  | some b =>
    have hb : b ≠ q := fun hbq => hne (by rw [hbi, hbq])
    simp [hagree b hb]

/-- Claim C4 witness: the 8 queries planned for topic `"x"` run in
`ceil(8/4) = 2` batches whose concatenation is the query list. -/
theorem C4_witness :
    (chunks 4 qs₀).length = (qs₀.length + 4 - 1) / 4 ∧ (chunks 4 qs₀).flatten = qs₀ :=
  ⟨(C4_fanout_executor qs₀ 4 g₀ g₀ "" "" (by decide)).1,
   (C4_fanout_executor qs₀ 4 g₀ g₀ "" "" (by decide)).2.1⟩

/-! ### Claim C5 -/

/-- Claim C5: the aggregation pass keeps only findings with snippets
longer than the 30-character threshold, keeps at most one finding per
case-insensitively-equal title (a qualifying unseen head is kept and
every later finding with the same lowercased title is dropped), and the
result is truncated to at most 25 findings as a sublist of the input,
preserving discovery order. -/
theorem C5_dedup_filter_cap (fs : List Finding) :
    (∀ f ∈ filter_dedup_cap fs, 30 < f.snippet.length) ∧
    (filter_dedup_cap fs).Pairwise (fun a b => strToLower a.title ≠ strToLower b.title) ∧
    (filter_dedup_cap fs).length ≤ 25 ∧
    List.Sublist (filter_dedup_cap fs) fs ∧
    (∀ (f : Finding) (rest : List Finding) (seen : List String),
       30 < f.snippet.length → strToLower f.title ∉ seen →
       dedupFindings (f :: rest) seen =
         f :: dedupFindings rest (strToLower f.title :: seen)) ∧
    (∀ (f g : Finding) (rest : List Finding) (seen : List String),
       g ∈ dedupFindings rest (strToLower f.title :: seen) →
       strToLower g.title ≠ strToLower f.title) := by
  refine ⟨?_, ?_, ?_, ?_, ?_, ?_⟩
  · intro f hf
    exact (mem_dedup fs [] f (List.mem_of_mem_take hf)).1
  · exact (dedup_pairwise fs []).sublist (List.take_sublist _ _)
  · unfold filter_dedup_cap
    rw [List.length_take]
    exact Nat.min_le_left _ _
  · exact (List.take_sublist _ _).trans (dedup_sublist fs [])
  · intro f rest seen h2 h1
    exact dedup_cons_kept f rest seen h1 h2
  · intro f g rest seen hg
    exact dedup_drops_later f rest seen g hg

/-- Claim C5 witness: two findings whose titles are `"Медицина"` and
`"медицина"` (differing only in Cyrillic letter case), both with
qualifying snippets — the first is kept and the second, seen under the
same lowercased title, is dropped. -/
theorem C5_witness :
    dedupFindings [finding₁, finding₂] [] =
      finding₁ :: dedupFindings [finding₂] [strToLower finding₁.title] ∧
    30 < finding₁.snippet.length :=
  ⟨(C5_dedup_filter_cap []).2.2.2.2.1 finding₁ [finding₂] [] (by decide) (by decide),
   (C5_dedup_filter_cap [finding₁]).1 finding₁ (by decide)⟩

/-! ### Claim C2 -/

/-- Claim C2, counterexample: the claim says each Source is 1:1 paired
with the deduplicated Finding that introduced it, and that with 3
qualifying items per query the sources list length is (query count × 3)
minus the duplicate titles.  With topic `"x"` (8 planned queries) and the
stub gateway `g₀` returning the same 3 qualifying items for every query
(so 21 duplicate titles across queries), the code keeps all 24 sources —
it deduplicates only `key_findings` (3 remain), never `sources`
(bot.py 685-694 touch `results["key_findings"]` only).  The claim
predicts 8 × 3 − 21 = 3 sources. -/
theorem C2_counterexample :
    (run_research_logic "x" settings₀ 4 g₀ (SynthOutcome.ok "SUMMARY")).sources.length = 24 ∧
    (run_research_logic "x" settings₀ 4 g₀ (SynthOutcome.ok "SUMMARY")).key_findings.length = 3 ∧
    (run_research_logic "x" settings₀ 4 g₀ (SynthOutcome.ok "SUMMARY")).sources.length ≠
      (run_research_logic "x" settings₀ 4 g₀ (SynthOutcome.ok "SUMMARY")).key_findings.length ∧
    (run_research_logic "x" settings₀ 4 g₀ (SynthOutcome.ok "SUMMARY")).sources.length ≠
      8 * 3 - 21 := by
  refine ⟨by decide, by decide, by decide, by decide⟩

/-- Claim C2, amended: each collected Source is 1:1 paired with the
pre-deduplication Finding that introduced it — the sources list is
exactly the image of the collected findings, whose source indices are
`1..N` in first-appearance order; when the gateway response of every query
holds exactly 3 qualifying items (and `max_results ≥ 3`), the final
sources list length is query count × 3 — duplicate titles are not
subtracted, since deduplication applies only to `key_findings`. -/
theorem C2_sources_pairing (topic : String) (s : Settings) (C : Nat)
    (gateway : String → GatewayOutcome) (synth : SynthOutcome) :
    ((run_research_logic topic s C gateway synth).sources =
       (collected_of topic s C gateway).1.map toSource) ∧
    ((collected_of topic s C gateway).1.map (fun f => f.source_index) =
       List.range' 1 (collected_of topic s C gateway).1.length) ∧
    (3 ≤ s.max_results →
      (∀ q : String, ∃ r : SerperResp, gateway q = .ok r ∧ r.organic.length = 3 ∧
          ∀ it ∈ r.organic, 20 < it.snippet.length) →
      (run_research_logic topic s C gateway synth).sources.length =
        3 * (generate_search_queries topic s).length) := by
  refine ⟨(collectAll_paired s.max_results (resps_of topic s C gateway)).1,
    (collectAll_paired s.max_results (resps_of topic s C gateway)).2, ?_⟩
  intro hm hgw
  show (collected_of topic s C gateway).2.length = _
  unfold collected_of
  rw [resps_of_eq]
  unfold collectAll
  rw [collectAll_length s.max_results hm _ ([], []) ?_]
  · simp
  · intro r hr
    rcases List.mem_map.mp hr with ⟨qq, _, rfl⟩
    obtain ⟨rr, hgq, h3, hqual⟩ := hgw qq
    rw [hgq]
    exact ⟨h3, hqual⟩

/-- Claim C2 witness: with the stub gateway returning 3 qualifying items
per query and topic `"x"` (8 queries), the final sources list has
3 × 8 = 24 entries. -/
theorem C2_witness :
    (run_research_logic "x" settings₀ 4 g₀ (SynthOutcome.ok "SUMMARY")).sources.length =
      3 * (generate_search_queries "x" settings₀).length :=
  (C2_sources_pairing "x" settings₀ 4 g₀ (SynthOutcome.ok "SUMMARY")).2.2 (by decide)
    (fun _ => ⟨{ organic := [item₁, item₂, item₃] }, rfl, by decide, by decide⟩)

/-! ### Claim C3 -/

/-- Claim C3: a second start for the same user without an intervening
terminal transition is rejected as already-active and creates no new
job; cancel with no task handle is rejected as no-active-job and leaves
the state unchanged; and after cancelling the job of a user, a status call
reports `cancelled` — never `running`. -/
theorem C3_lifecycle (chat : Nat) (topic₁ topic₂ : String)
    (now₁ now₂ now₃ : Nat) (s₁ s₂ : Settings) (pmid₁ pmid₂ : Nat)
    (st : BotState) (j : Job) :
    ((start_research chat topic₁ now₁ s₁ pmid₁ st).1 = .started →
       (start_research chat topic₂ now₂ s₂ pmid₂
           (start_research chat topic₁ now₁ s₁ pmid₁ st).2.1).1 = .alreadyActive ∧
       (start_research chat topic₂ now₂ s₂ pmid₂
           (start_research chat topic₁ now₁ s₁ pmid₁ st).2.1).2.1 =
         (start_research chat topic₁ now₁ s₁ pmid₁ st).2.1) ∧
    (chat ∉ st.tasks →
       (cancel_command chat st).1 = .noActiveJob ∧ (cancel_command chat st).2.1 = st) ∧
    (chat ∈ st.tasks → lookupJob chat st.jobs = some j →
       (status_command chat now₃ (cancel_command chat st).2.1).1 =
         .report j.topic (format_time (now₃ - j.start_time)) .cancelled ∧
       ∀ e, (status_command chat now₃ (cancel_command chat st).2.1).1 ≠
         .report j.topic e .running) := by
  refine ⟨?_, ?_, ?_⟩
  · intro hfirst
    by_cases hmem : chat ∈ st.tasks
    · simp [start_research, hmem] at hfirst
    · exact start_rejects chat topic₂ now₂ s₂ pmid₂ _
        (start_adds_task chat topic₁ now₁ s₁ pmid₁ st hmem)
  · intro hmem
    simp [cancel_command, hmem]
  · intro hmem hj
    have hsome : (lookupJob chat st.jobs).isSome = true := by rw [hj]; rfl
    have hstate : (cancel_command chat st).2.1.jobs =
        updateJob chat (fun j => { j with status := .cancelled }) st.jobs := by
      simp [cancel_command, hmem, hsome]
    constructor
    · simp [status_command, hstate, lookup_updateJob, hj]
    · intro e
      simp [status_command, hstate, lookup_updateJob, hj]

/-- Claim C3 witness: starting twice for user 1 on the empty state gets
an already-active rejection with unchanged state; cancelling user 2 (no
task) is rejected; and after cancelling the running job of user 1, status
reports `cancelled`. -/
theorem C3_witness :
    ((start_research 1 "t2" 5 settings₀ 7
        (start_research 1 "t1" 0 settings₀ 3 { tasks := [], jobs := [] }).2.1).1 =
      StartResult.alreadyActive ∧
     (start_research 1 "t2" 5 settings₀ 7
        (start_research 1 "t1" 0 settings₀ 3 { tasks := [], jobs := [] }).2.1).2.1 =
      (start_research 1 "t1" 0 settings₀ 3 { tasks := [], jobs := [] }).2.1) ∧
    ((cancel_command 2 st_running).1 = CancelResult.noActiveJob ∧
     (cancel_command 2 st_running).2.1 = st_running) ∧
    ((status_command 1 60 (cancel_command 1 st_running).2.1).1 =
      StatusReport.report job_running.topic (format_time (60 - job_running.start_time))
        Status.cancelled) :=
  ⟨(C3_lifecycle 1 "t1" "t2" 0 5 60 settings₀ settings₀ 3 7
      { tasks := [], jobs := [] } job_running).1 (by decide),
   (C3_lifecycle 2 "t1" "t2" 0 5 60 settings₀ settings₀ 3 7 st_running job_running).2.1
      (by decide),
   ((C3_lifecycle 1 "t1" "t2" 0 5 60 settings₀ settings₀ 3 7 st_running job_running).2.2
      (by decide) (by decide)).1⟩

/-! ### Claim C6 -/

/-- Claim C6: a synthesizer timeout or exception is downgraded to a
placeholder narrative explaining the failure; the collected findings and
sources are exactly those of a successful synthesis run, and the runner
still records the job as `done` with the collected sources — the
synthesis failure never aborts the job. -/
theorem C6_synthesis_downgrade (topic : String) (s : Settings) (C : Nat)
    (gateway : String → GatewayOutcome) (e t : String) (chat now : Nat)
    (st : BotState) (j : Job) (hj : lookupJob chat st.jobs = some j) :
    ((run_research_logic topic s C gateway .timeout).full_report_text =
       "⚠️ Превышено время ожидания ответа от AI. Попробуйте позже или упростите тему.") ∧
    ((run_research_logic topic s C gateway (.raise e)).full_report_text =
       "⚠️ Ошибка при создании отчёта: " ++ e) ∧
    ((run_research_logic topic s C gateway .timeout).key_findings =
       (run_research_logic topic s C gateway (.ok t)).key_findings) ∧
    ((run_research_logic topic s C gateway .timeout).sources =
       (run_research_logic topic s C gateway (.ok t)).sources) ∧
    (lookupJob chat
        (research_task_runner_success chat topic s C gateway .timeout now st).1.jobs =
      some { j with
             status := .done,
             completed_time := some (now - j.start_time),
             sources_list := (run_research_logic topic s C gateway .timeout).sources }) := by
  refine ⟨rfl, rfl, rfl, rfl, ?_⟩
  simp [research_task_runner_success, lookup_updateJob, hj]

/-- Claim C6 witness: with the stub gateway and a synthesizer timeout,
the runner records the job of user 1 as `done` carrying the 24 collected
sources. -/
theorem C6_witness :
    lookupJob 1
        (research_task_runner_success 1 "x" settings₀ 4 g₀ SynthOutcome.timeout 100
          st_running).1.jobs =
      some { job_running with
             status := Status.done,
             completed_time := some (100 - job_running.start_time),
             sources_list := (run_research_logic "x" settings₀ 4 g₀ SynthOutcome.timeout).sources } :=
  (C6_synthesis_downgrade "x" settings₀ 4 g₀ "boom" "SUMMARY" 1 100 st_running job_running
    (by decide)).2.2.2.2

/-! ### Claim C7 -/

/-- Claim C7, counterexample: on the unhandled-exception path of
`_research_task_runner` the user-visible error message is sent
(bot.py 593-600) before the `error` snapshot is persisted
(bot.py 601-606), so the write-before-notify ordering fails for the
`error` transition. -/
theorem C7_counterexample :
    write_before_notify (research_task_runner_error 1 st_running).2 = false := by
  decide

/-- Claim C7, amended: the durable snapshot is written before the
corresponding notification for the `done` transition and for both
`cancelled` transitions (cancel command and runner cancellation
handler); but on the `error` transition — and for the initial launch
message announcing the `running` job — the notification is attempted
before the durable write. -/
theorem C7_write_notify_order (chat : Nat) (topic : String) (s : Settings)
    (C : Nat) (gateway : String → GatewayOutcome) (synth : SynthOutcome)
    (now pmid : Nat) (st : BotState)
    (h : (lookupJob chat st.jobs).isSome = true) :
    write_before_notify
        (research_task_runner_success chat topic s C gateway synth now st).2 = true ∧
    write_before_notify (research_task_runner_cancelled chat st).2 = true ∧
    write_before_notify (cancel_command chat st).2.2 = true ∧
    write_before_notify (research_task_runner_error chat st).2 = false ∧
    (chat ∉ st.tasks →
       write_before_notify (start_research chat topic now s pmid st).2.2 = false) := by
  refine ⟨rfl, ?_, ?_, ?_, ?_⟩
  · simp [research_task_runner_cancelled, h]
    rfl
  · by_cases hmem : chat ∈ st.tasks
    · simp [cancel_command, hmem, h]
      rfl
    · simp [cancel_command, hmem]
      rfl
  · simp [research_task_runner_error, h]
    rfl
  · intro hmem
    simp [start_research, hmem]
    rfl

/-- Claim C7 witness: in a state where user 1 owns a finished-job record
and no task handle, the done and cancelled traces satisfy
write-before-notify, the error trace does not, and the launch message
precedes the running write. -/
theorem C7_witness :
    write_before_notify
        (research_task_runner_success 1 "x" settings₀ 4 g₀ (SynthOutcome.ok "S") 100
          st_done).2 = true ∧
    write_before_notify (research_task_runner_cancelled 1 st_done).2 = true ∧
    write_before_notify (research_task_runner_error 1 st_done).2 = false ∧
    write_before_notify (start_research 1 "x" 0 settings₀ 3 st_done).2.2 = false :=
  ⟨(C7_write_notify_order 1 "x" settings₀ 4 g₀ (SynthOutcome.ok "S") 100 3 st_done
      (by decide)).1,
   (C7_write_notify_order 1 "x" settings₀ 4 g₀ (SynthOutcome.ok "S") 100 3 st_done
      (by decide)).2.1,
   (C7_write_notify_order 1 "x" settings₀ 4 g₀ (SynthOutcome.ok "S") 100 3 st_done
      (by decide)).2.2.2.1,
   (C7_write_notify_order 1 "x" settings₀ 4 g₀ (SynthOutcome.ok "S") 100 3 st_done
      (by decide)).2.2.2.2 (by decide)⟩

/-! ### Claim C8 -/

/-- Claim C8, counterexample: two status calls at different times on the
same `done` job report different content — the elapsed-time field is
recomputed from the current clock (`int(time.time() - r["start_time"])`,
bot.py 393), not from the stored completion duration. -/
theorem C8_counterexample :
    (status_command 1 60 st_done).1 ≠ (status_command 1 120 st_done).1 := by
  decide

/-- Claim C8, amended: a status read performs no mutation and always
reports the stored topic and terminal status `done`; but the elapsed
field is recomputed from the current clock on every call, so calls at
different times differ in that field only. -/
theorem C8_status_read (chat n₁ n₂ : Nat) (st : BotState) (j : Job)
    (hj : lookupJob chat st.jobs = some j) (hdone : j.status = .done) :
    (status_command chat n₁ st).2 = st ∧
    (status_command chat n₁ st).1 =
      .report j.topic (format_time (n₁ - j.start_time)) .done ∧
    (status_command chat n₂ st).1 =
      .report j.topic (format_time (n₂ - j.start_time)) .done := by
  refine ⟨rfl, ?_, ?_⟩ <;> simp [status_command, hj, hdone]

/-- Claim C8 witness: status reads of the done job of user 1 at times 60 and
120 mutate nothing and report the stored topic and `done` status. -/
theorem C8_witness :
    (status_command 1 60 st_done).2 = st_done ∧
    (status_command 1 60 st_done).1 =
      StatusReport.report job_done.topic (format_time (60 - job_done.start_time)) Status.done ∧
    (status_command 1 120 st_done).1 =
      StatusReport.report job_done.topic (format_time (120 - job_done.start_time)) Status.done :=
  C8_status_read 1 60 120 st_done job_done (by decide) rfl

/-! ### Claim C10 -/

/-- Claim C10: every termination of the background research task —
success, cancellation, or unhandled exception — removes that user task
handle (the `finally` block, bot.py 607-609), so a subsequent start
request for that user is admitted. -/
theorem C10_handle_release (chat : Nat) (topic topic' : String) (s s' : Settings)
    (C : Nat) (gateway : String → GatewayOutcome) (synth : SynthOutcome)
    (now now' pmid' : Nat) (st : BotState) :
    (chat ∉ (research_task_runner_success chat topic s C gateway synth now st).1.tasks ∧
     (start_research chat topic' now' s' pmid'
        (research_task_runner_success chat topic s C gateway synth now st).1).1 = .started) ∧
    (chat ∉ (research_task_runner_cancelled chat st).1.tasks ∧
     (start_research chat topic' now' s' pmid'
        (research_task_runner_cancelled chat st).1).1 = .started) ∧
    (chat ∉ (research_task_runner_error chat st).1.tasks ∧
     (start_research chat topic' now' s' pmid'
        (research_task_runner_error chat st).1).1 = .started) := by
  refine ⟨⟨not_mem_filter_ne chat st.tasks, ?_⟩,
    ⟨not_mem_filter_ne chat st.tasks, ?_⟩,
    ⟨not_mem_filter_ne chat st.tasks, ?_⟩⟩ <;>
    simp [start_research, not_mem_filter_ne chat st.tasks,
      research_task_runner_success, research_task_runner_cancelled,
      research_task_runner_error]

/-- Claim C10 witness: after the running task of user 1 terminates with an
error, a new start for user 1 is admitted. -/
theorem C10_witness :
    (start_research 1 "y" 200 settings₀ 9 (research_task_runner_error 1 st_running).1).1 =
      StartResult.started :=
  (C10_handle_release 1 "x" "y" settings₀ settings₀ 4 g₀ (SynthOutcome.ok "S") 100 200 9
    st_running).2.2.2

end Bot
